import Mathlib

/-!
Shallow embedding of `src/ytdl_gui.pyw` (a Tkinter front-end around the
yt-dlp extraction library and the ffmpeg codec tool).

The embedding models:
* `pyStrip` — Python's `str.strip()` used on the URL and directory fields;
* `build_ydl_opts` — the `ydl_opts` dictionary built in `_do_download`,
  with the format-dependent parts (`format`, `postprocessors`,
  `merge_output_format`);
* `do_download` — the body of `_do_download` (lines 261–331): the external
  extraction call either returns metadata or raises; the worker then logs a
  completion line and attempts a platform `startfile` side effect, or logs
  an error line and shows an error dialog;
* `GuiState` / `step` — the controller state (`is_downloading`, button
  states, the log queue drained by `_poll_log_queue`, the rendered log
  text) and the event-driven transitions: `_on_run_clicked`,
  `_on_cancel_clicked`, the toggle switch, `_poll_log_queue`, worker log
  emission, and worker exit (whose cleanup models the `finally` block at
  lines 336–340).

Machine threads are modelled by interleaving: a trace is a list of events,
and worker activity (log emission, exit) appears as events interleaved
with user actions, which is exactly the set of behaviours the two-thread
program can exhibit at the granularity the claims speak about.
-/

namespace YtDl

/-- Python's `str.strip()`: remove leading and trailing whitespace
(applied to the URL and save-directory fields at lines 212–213). -/
def pyStrip (s : String) : String :=
  ⟨((s.data.dropWhile Char.isWhitespace).reverse.dropWhile Char.isWhitespace).reverse⟩

/-- `os.path.join` as used on POSIX-style paths in the embedding. -/
def joinPath (a b : String) : String :=
  if a = "" then b else if a.endsWith "/" then a ++ b else a ++ "/" ++ b

/-- The parameters captured at submission time and passed to the worker
thread (line 237: `args=(url, save_dir, self.as_mp3_var.get())`).
`as_mp3 = true` means MP3/audio, `as_mp3 = false` means MP4/video,
mirroring `self.as_mp3_var`. -/
structure JobRequest where
  url : String
  save_dir : String
  as_mp3 : Bool
deriving DecidableEq, Repr

/-- One entry of the `postprocessors` list in `ydl_opts` (lines 276–280). -/
structure Postprocessor where
  key : String
  preferredcodec : String
  preferredquality : String
deriving DecidableEq, Repr

/-- The `ydl_opts` dictionary handed to `yt_dlp.YoutubeDL`
(lines 266–286), with the fields the program sets. -/
structure YdlOpts where
  outtmpl : String
  noprogress : Bool
  quiet : Bool
  windowsfilenames : Bool
  format : String
  postprocessors : List Postprocessor
  merge_output_format : Option String
deriving DecidableEq, Repr

/-- Construction of `ydl_opts` in `_do_download` (lines 265–286): the base
options plus the format-dependent update selected by `as_mp3`. -/
def build_ydl_opts (save_dir : String) (as_mp3 : Bool) : YdlOpts :=
  let base : YdlOpts :=
    { outtmpl := joinPath save_dir "%(title)s [%(id)s].%(ext)s"
      noprogress := true
      quiet := true
      windowsfilenames := true
      format := ""
      postprocessors := []
      merge_output_format := none }
  if as_mp3 then
    { base with
        format := "bestaudio/best"
        postprocessors := [⟨"FFmpegExtractAudio", "mp3", "192"⟩] }
  else
    { base with
        format := "bestvideo[ext=mp4]+bestaudio[ext=m4a]/best[ext=mp4]/best"
        merge_output_format := some "mp4" }

/-- Outcome of `ydl.extract_info(url, download=True)` (line 315): either a
metadata dict (of which the program reads `title` and `id`, with `.get`
defaults at line 317), or an exception carrying a message. Any exception
raised anywhere inside the worker body is modelled by `raised`. -/
inductive ExtractResult where
  | ok (title : Option String) (id : Option String)
  | raised (msg : String)
deriving DecidableEq, Repr

/-- The environment one worker run observes: the lines the yt-dlp logger
and the progress hook emit while the extraction runs, the extraction
outcome, and whether `os.path.exists(saved_path)` holds at line 320. -/
structure WorkerEnv where
  stream : List String
  extract : ExtractResult
  saved_path_exists : Bool
deriving DecidableEq, Repr

/-- Observable side effects of the worker outside the log channel. -/
inductive SideEffect where
  | startfile (path : String)
  | showError (msg : String)
deriving DecidableEq, Repr

/-- What one worker run produces: the options it configured the external
tool with, the lines it put on the log queue, and its side effects. -/
structure WorkerResult where
  opts : YdlOpts
  logs : List String
  effects : List SideEffect
deriving DecidableEq, Repr

/-- The body of `_do_download` (lines 261–335, before the `finally`
block). Note that it is a function of the `JobRequest` and the worker
environment only: it takes no cancellation flag. -/
def do_download (req : JobRequest) (wenv : WorkerEnv) : WorkerResult :=
  let opts := build_ydl_opts req.save_dir req.as_mp3
  match wenv.extract with
  | .raised msg =>
      { opts := opts
        logs := wenv.stream ++ ["エラー: " ++ msg]
        effects := [SideEffect.showError msg] }
  | .ok title id =>
      let base := title.getD "download" ++ " [" ++ id.getD "id" ++ "]."
                    ++ (if req.as_mp3 then "mp3" else "mp4")
      let saved_path := joinPath req.save_dir base
      if wenv.saved_path_exists then
        { opts := opts
          logs := wenv.stream ++ ["完了: " ++ saved_path]
          effects := [SideEffect.startfile saved_path] }
      else
        { opts := opts
          logs := wenv.stream
                    ++ ["完了（注意：ファイル名が異なる可能性あり）。保存先フォルダを開きます。"]
          effects := [SideEffect.startfile req.save_dir] }

/-- The error dialogs `_on_run_clicked` can show before starting a worker:
the two `showwarning` calls (lines 215, 218) are VALIDATION errors, the
two `showerror` calls (lines 225, 228) are DEPENDENCY_MISSING errors. -/
inductive SubmitError where
  | validationUrl
  | validationDir
  | missingYtDlp
  | missingFfmpeg
deriving DecidableEq, Repr

/-- Whether a submit error belongs to the VALIDATION taxonomy class. -/
def SubmitError.isValidation : SubmitError → Bool
  | .validationUrl => true
  | .validationDir => true
  | _ => false

/-- Whether a submit error belongs to the DEPENDENCY_MISSING class. -/
def SubmitError.isDependency : SubmitError → Bool
  | .missingYtDlp => true
  | .missingFfmpeg => true
  | _ => false

/-- The environment `_on_run_clicked` consults: whether `import yt_dlp`
succeeds, whether `shutil.which("ffmpeg")` finds the codec tool, and
`os.path.isdir`. -/
structure SubmitEnv where
  yt_dlp_ok : Bool
  ffmpeg_ok : Bool
  isdir : String → Bool

/-- The GUI-side state of `YtDlGUI`: the three Tk variables, the
`is_downloading` flag, the two button states (`true` = "normal"), the
log queue and the rendered log text, the live worker threads (in spawn
order) and the full history of spawned requests, the modal dialogs shown,
and the side effects performed by finished workers. -/
structure GuiState where
  url_var : String
  save_dir_var : String
  as_mp3_var : Bool
  is_downloading : Bool
  run_btn_enabled : Bool
  cancel_btn_enabled : Bool
  log_queue : List String
  log_text : List String
  active_workers : List JobRequest
  spawned : List JobRequest
  alerts : List SubmitError
  effects : List SideEffect
deriving DecidableEq, Repr

/-- `_on_run_clicked` (lines 209–239). Returns the successor state and
the error dialog, if one was shown. On the success path it sets the flag,
flips the buttons, logs the start line, and spawns the worker thread with
the stripped URL, stripped directory, and the toggle value read at this
moment. -/
def on_run_clicked (env : SubmitEnv) (s : GuiState) : GuiState × Option SubmitError :=
  if s.is_downloading then (s, none)
  else
    let url := pyStrip s.url_var
    let save_dir := pyStrip s.save_dir_var
    if url = "" then (s, some .validationUrl)
    else if save_dir = "" ∨ env.isdir save_dir = false then (s, some .validationDir)
    else if env.yt_dlp_ok = false then (s, some .missingYtDlp)
    else if env.ffmpeg_ok = false then (s, some .missingFfmpeg)
    else
      let req : JobRequest := ⟨url, save_dir, s.as_mp3_var⟩
      ({ s with
          is_downloading := true
          run_btn_enabled := false
          cancel_btn_enabled := true
          log_queue := s.log_queue ++ ["ダウンロードを開始します…"]
          active_workers := s.active_workers ++ [req]
          spawned := s.spawned ++ [req] }, none)

/-- `_on_cancel_clicked` (lines 241–243): log a message and clear the
`is_downloading` flag. Nothing else is touched — in particular no worker
is interrupted and no button state changes. -/
def on_cancel_clicked (s : GuiState) : GuiState :=
  { s with
      log_queue := s.log_queue
        ++ ["キャンセル要求を受け付けました。しばらくお待ちください…（現在の処理単位が終わるまで継続する可能性があります）"]
      is_downloading := false }

/-- `ToggleSwitch._toggle` plus `_on_toggle_changed` (lines 78–82,
194–196): flip the boolean variable and log the switch message. -/
def on_toggle_clicked (s : GuiState) : GuiState :=
  let b := !s.as_mp3_var
  { s with
      as_mp3_var := b
      log_queue := s.log_queue
        ++ ["形式を切替: " ++ (if b then "MP3(音声)" else "MP4(動画)")] }

/-- `_poll_log_queue` (lines 245–252): drain the queue with non-blocking
`get_nowait` until `queue.Empty`, appending every line to the text widget
in arrival order. -/
def poll_log_queue (s : GuiState) : GuiState :=
  { s with log_text := s.log_text ++ s.log_queue, log_queue := [] }

/-- The `finally` block of `_do_download` (lines 336–340) applied when the
worker `req` exits with observations `wenv`: the body's queued lines and
effects are delivered, then the flag is cleared, the run button is
re-enabled, the cancel button is disabled, and the waiting line is
logged. -/
def worker_finish (wenv : WorkerEnv) (req : JobRequest) (s : GuiState) : GuiState :=
  let r := do_download req wenv
  { s with
      log_queue := s.log_queue ++ r.logs ++ ["待機中。別のURLで続けられます。"]
      effects := s.effects ++ r.effects
      is_downloading := false
      run_btn_enabled := true
      cancel_btn_enabled := false }

/-- The events the interleaved two-thread system can perform. -/
inductive Event where
  | setUrl (u : String)
  | setDir (d : String)
  | toggleClicked
  | runClicked
  | cancelClicked
  | pollLog
  | workerLog (line : String)
  | workerExit (wenv : WorkerEnv)
deriving DecidableEq, Repr

/-- One transition of the system. `workerLog` is a live worker calling
`self._log` (a no-op when no worker is live); `workerExit` is the oldest
live worker finishing with the given observations. -/
def step (env : SubmitEnv) (s : GuiState) : Event → GuiState
  | .setUrl u => { s with url_var := u }
  | .setDir d => { s with save_dir_var := d }
  | .toggleClicked => on_toggle_clicked s
  | .runClicked =>
      match on_run_clicked env s with
      | (s', some e) => { s' with alerts := s'.alerts ++ [e] }
      | (s', none) => s'
  | .cancelClicked => on_cancel_clicked s
  | .pollLog => poll_log_queue s
  | .workerLog line =>
      if s.active_workers.isEmpty then s
      else { s with log_queue := s.log_queue ++ [line] }
  | .workerExit wenv =>
      match s.active_workers with
      | [] => s
      | req :: rest => { worker_finish wenv req s with active_workers := rest }

/-- Run a trace of events from a state. -/
def run (env : SubmitEnv) (s : GuiState) (t : List Event) : GuiState :=
  t.foldl (step env) s

/-- The state right after `YtDlGUI.__init__` (lines 116–133): empty
fields, MP3 selected, not downloading, run button enabled, cancel button
disabled, the ready line queued (line 183). The default save directory
(lines 186–192) is environment-dependent and left empty here. -/
def initState : GuiState :=
  { url_var := ""
    save_dir_var := ""
    as_mp3_var := true
    is_downloading := false
    run_btn_enabled := true
    cancel_btn_enabled := false
    log_queue := ["準備OK：URL と 保存先 を指定して、形式を切り替えてください。"]
    log_text := []
    active_workers := []
    spawned := []
    alerts := []
    effects := [] }

/-- The conjunction of the four precondition checks of `_on_run_clicked`
that lets a submission start a worker. -/
def validSubmit (env : SubmitEnv) (s : GuiState) : Prop :=
  pyStrip s.url_var ≠ "" ∧ pyStrip s.save_dir_var ≠ "" ∧
  env.isdir (pyStrip s.save_dir_var) = true ∧
  env.yt_dlp_ok = true ∧ env.ffmpeg_ok = true

/-- A fully permissive environment used for concrete evaluations. -/
def envAllOk : SubmitEnv :=
  { yt_dlp_ok := true, ffmpeg_ok := true, isdir := fun _ => true }

/-- The outcome logs of the in-flight worker (head of the live-worker
list) under observations `wenv`; `[]` when no worker is live. -/
def workerLogsOf (s : GuiState) (wenv : WorkerEnv) : List String :=
  match s.active_workers with
  | [] => []
  | req :: _ => (do_download req wenv).logs

/-- The side effects of the in-flight worker under observations `wenv`. -/
def workerEffectsOf (s : GuiState) (wenv : WorkerEnv) : List SideEffect :=
  match s.active_workers with
  | [] => []
  | req :: _ => (do_download req wenv).effects

/-- The lifecycle invariant that holds in every reachable state of runs
without cancel clicks: at most one worker is live, and the
`is_downloading` flag is set exactly when a worker is live. -/
def goodState (s : GuiState) : Prop :=
  s.active_workers.length ≤ 1 ∧ s.is_downloading = !s.active_workers.isEmpty

/-
Helper lemmas about the individual handlers.
-/

theorem on_run_clicked_running {env : SubmitEnv} {s : GuiState}
    (h : s.is_downloading = true) : on_run_clicked env s = (s, none) := by
  simp [on_run_clicked, h]

theorem on_run_clicked_url_empty {env : SubmitEnv} {s : GuiState}
    (hIdle : s.is_downloading = false) (h : pyStrip s.url_var = "") :
    on_run_clicked env s = (s, some SubmitError.validationUrl) := by
  simp [on_run_clicked, hIdle, h]

theorem on_run_clicked_dir_bad {env : SubmitEnv} {s : GuiState}
    (hIdle : s.is_downloading = false) (hu : pyStrip s.url_var ≠ "")
    (hd : pyStrip s.save_dir_var = "" ∨ env.isdir (pyStrip s.save_dir_var) = false) :
    on_run_clicked env s = (s, some SubmitError.validationDir) := by
  simp only [on_run_clicked, hIdle, Bool.false_eq_true, if_false, if_neg hu, if_pos hd]

theorem on_run_clicked_no_ytdlp {env : SubmitEnv} {s : GuiState}
    (hIdle : s.is_downloading = false) (hu : pyStrip s.url_var ≠ "")
    (hd : pyStrip s.save_dir_var ≠ "") (hi : env.isdir (pyStrip s.save_dir_var) = true)
    (hy : env.yt_dlp_ok = false) :
    on_run_clicked env s = (s, some SubmitError.missingYtDlp) := by
  have hdor : ¬ (pyStrip s.save_dir_var = "" ∨ env.isdir (pyStrip s.save_dir_var) = false) := by
    simp [hd, hi]
  simp only [on_run_clicked, hIdle, Bool.false_eq_true, if_false, if_neg hu, if_neg hdor,
    if_pos hy]

theorem on_run_clicked_no_ffmpeg {env : SubmitEnv} {s : GuiState}
    (hIdle : s.is_downloading = false) (hu : pyStrip s.url_var ≠ "")
    (hd : pyStrip s.save_dir_var ≠ "") (hi : env.isdir (pyStrip s.save_dir_var) = true)
    (hy : env.yt_dlp_ok = true) (hf : env.ffmpeg_ok = false) :
    on_run_clicked env s = (s, some SubmitError.missingFfmpeg) := by
  have hdor : ¬ (pyStrip s.save_dir_var = "" ∨ env.isdir (pyStrip s.save_dir_var) = false) := by
    simp [hd, hi]
  have hy' : ¬ env.yt_dlp_ok = false := by simp [hy]
  simp only [on_run_clicked, hIdle, Bool.false_eq_true, if_false, if_neg hu, if_neg hdor,
    if_neg hy', if_pos hf]

theorem on_run_clicked_success {env : SubmitEnv} {s : GuiState}
    (hIdle : s.is_downloading = false) (hv : validSubmit env s) :
    on_run_clicked env s =
      ({ s with
          is_downloading := true
          run_btn_enabled := false
          cancel_btn_enabled := true
          log_queue := s.log_queue ++ ["ダウンロードを開始します…"]
          active_workers := s.active_workers
            ++ [⟨pyStrip s.url_var, pyStrip s.save_dir_var, s.as_mp3_var⟩]
          spawned := s.spawned
            ++ [⟨pyStrip s.url_var, pyStrip s.save_dir_var, s.as_mp3_var⟩] }, none) := by
  obtain ⟨hu, hd, hi, hy, hf⟩ := hv
  have hdor : ¬ (pyStrip s.save_dir_var = "" ∨ env.isdir (pyStrip s.save_dir_var) = false) := by
    simp [hd, hi]
  have hy' : ¬ env.yt_dlp_ok = false := by simp [hy]
  have hf' : ¬ env.ffmpeg_ok = false := by simp [hf]
  simp only [on_run_clicked, hIdle, Bool.false_eq_true, if_false, if_neg hu, if_neg hdor,
    if_neg hy', if_neg hf']

/-- Every event other than a cancel click preserves the lifecycle
invariant. -/
theorem goodState_step (env : SubmitEnv) (s : GuiState) (e : Event)
    (he : e ≠ Event.cancelClicked) (h : goodState s) : goodState (step env s e) := by
  obtain ⟨h1, h2⟩ := h
  cases e with
  | setUrl u => exact ⟨h1, h2⟩
  | setDir d => exact ⟨h1, h2⟩
  | toggleClicked => exact ⟨h1, h2⟩
  | pollLog => exact ⟨h1, h2⟩
  | cancelClicked => exact absurd rfl he
  | workerLog line =>
      by_cases hw : s.active_workers.isEmpty
      · simpa [step, hw] using ⟨h1, h2⟩
      · simpa [step, hw] using ⟨h1, h2⟩
  | workerExit wenv =>
      cases hw : s.active_workers with
      | nil => simpa [step, hw] using ⟨h1, h2⟩
      | cons req rest =>
          have hrest : rest = [] := by
            have := h1
            rw [hw] at this
            simpa using this
          subst hrest
          simp [step, hw, worker_finish, goodState]
  | runClicked =>
      by_cases hd : s.is_downloading = true
      · simp only [step, on_run_clicked_running hd]
        exact ⟨h1, h2⟩
      · have hIdle : s.is_downloading = false := by
          cases hds : s.is_downloading
          · rfl
          · exact absurd hds hd
        have hempty : s.active_workers = [] := by
          rw [hIdle] at h2
          cases hw : s.active_workers with
          | nil => rfl
          | cons a l => rw [hw] at h2; simp at h2
        by_cases hu : pyStrip s.url_var = ""
        · simp only [step, on_run_clicked_url_empty hIdle hu]
          exact ⟨h1, h2⟩
        · by_cases hdir : pyStrip s.save_dir_var = "" ∨
              env.isdir (pyStrip s.save_dir_var) = false
          · simp only [step, on_run_clicked_dir_bad hIdle hu hdir]
            exact ⟨h1, h2⟩
          · have hd' : pyStrip s.save_dir_var ≠ "" := fun hc => hdir (Or.inl hc)
            have hi : env.isdir (pyStrip s.save_dir_var) = true := by
              cases hc : env.isdir (pyStrip s.save_dir_var)
              · exact absurd (Or.inr hc) hdir
              · rfl
            by_cases hy : env.yt_dlp_ok = false
            · simp only [step, on_run_clicked_no_ytdlp hIdle hu hd' hi hy]
              exact ⟨h1, h2⟩
            · have hy' : env.yt_dlp_ok = true := by
                cases hc : env.yt_dlp_ok
                · exact absurd hc hy
                · rfl
              by_cases hf : env.ffmpeg_ok = false
              · simp only [step, on_run_clicked_no_ffmpeg hIdle hu hd' hi hy' hf]
                exact ⟨h1, h2⟩
              · have hf' : env.ffmpeg_ok = true := by
                  cases hc : env.ffmpeg_ok
                  · exact absurd hc hf
                  · rfl
                simp only [step, on_run_clicked_success hIdle ⟨hu, hd', hi, hy', hf'⟩]
                constructor
                · simp [hempty]
                · simp [hempty]

/-- The lifecycle invariant holds along any cancel-free trace. -/
theorem goodState_run (env : SubmitEnv) (s : GuiState) (t : List Event)
    (ht : Event.cancelClicked ∉ t) (h : goodState s) : goodState (run env s t) := by
  induction t generalizing s with
  | nil => exact h
  | cons e es ih =>
      have he : e ≠ Event.cancelClicked := by
        intro hc
        exact ht (hc ▸ List.mem_cons_self e es)
      have hes : Event.cancelClicked ∉ es := fun hc => ht (List.mem_cons_of_mem e hc)
      exact ih (step env s e) hes (goodState_step env s e he h)

/-- If a step turns the flag on, the event was a run click and the four
precondition checks all passed. -/
theorem flag_on_only_by_valid_submit (env : SubmitEnv) (s : GuiState) (e : Event)
    (hIdle : s.is_downloading = false) (hOn : (step env s e).is_downloading = true) :
    e = Event.runClicked ∧ validSubmit env s := by
  cases e with
  | setUrl u => simp only [step] at hOn; rw [hIdle] at hOn; exact absurd hOn (by simp)
  | setDir d => simp only [step] at hOn; rw [hIdle] at hOn; exact absurd hOn (by simp)
  | toggleClicked =>
      simp only [step, on_toggle_clicked] at hOn
      rw [hIdle] at hOn; exact absurd hOn (by simp)
  | pollLog =>
      simp only [step, poll_log_queue] at hOn
      rw [hIdle] at hOn; exact absurd hOn (by simp)
  | cancelClicked =>
      simp only [step, on_cancel_clicked] at hOn
      exact absurd hOn (by simp)
  | workerLog line =>
      by_cases hw : s.active_workers.isEmpty
      · simp only [step, if_pos hw] at hOn
        rw [hIdle] at hOn; exact absurd hOn (by simp)
      · simp only [step, if_neg hw] at hOn
        rw [hIdle] at hOn; exact absurd hOn (by simp)
  | workerExit wenv =>
      cases hw : s.active_workers with
      | nil =>
          simp only [step, hw] at hOn
          rw [hIdle] at hOn; exact absurd hOn (by simp)
      | cons req rest =>
          simp only [step, hw, worker_finish] at hOn
          exact absurd hOn (by simp)
  | runClicked =>
      refine ⟨rfl, ?_⟩
      by_cases hu : pyStrip s.url_var = ""
      · simp only [step, on_run_clicked_url_empty hIdle hu] at hOn
        rw [hIdle] at hOn; exact absurd hOn (by simp)
      · by_cases hdir : pyStrip s.save_dir_var = "" ∨
            env.isdir (pyStrip s.save_dir_var) = false
        · simp only [step, on_run_clicked_dir_bad hIdle hu hdir] at hOn
          rw [hIdle] at hOn; exact absurd hOn (by simp)
        · have hd' : pyStrip s.save_dir_var ≠ "" := fun hc => hdir (Or.inl hc)
          have hi : env.isdir (pyStrip s.save_dir_var) = true := by
            cases hc : env.isdir (pyStrip s.save_dir_var)
            · exact absurd (Or.inr hc) hdir
            · rfl
          by_cases hy : env.yt_dlp_ok = false
          · simp only [step, on_run_clicked_no_ytdlp hIdle hu hd' hi hy] at hOn
            rw [hIdle] at hOn; exact absurd hOn (by simp)
          · have hy' : env.yt_dlp_ok = true := by
              cases hc : env.yt_dlp_ok
              · exact absurd hc hy
              · rfl
            by_cases hf : env.ffmpeg_ok = false
            · simp only [step, on_run_clicked_no_ffmpeg hIdle hu hd' hi hy' hf] at hOn
              rw [hIdle] at hOn; exact absurd hOn (by simp)
            · have hf' : env.ffmpeg_ok = true := by
                cases hc : env.ffmpeg_ok
                · exact absurd hc hf
                · rfl
              exact ⟨hu, hd', hi, hy', hf'⟩

/-- If a step turns the flag off, the event was a cancel click or a worker
exit. -/
theorem flag_off_only_by_cancel_or_exit (env : SubmitEnv) (s : GuiState) (e : Event)
    (hRun : s.is_downloading = true) (hOff : (step env s e).is_downloading = false) :
    e = Event.cancelClicked ∨ ∃ wenv, e = Event.workerExit wenv := by
  cases e with
  | setUrl u => simp only [step] at hOff; rw [hRun] at hOff; exact absurd hOff (by simp)
  | setDir d => simp only [step] at hOff; rw [hRun] at hOff; exact absurd hOff (by simp)
  | toggleClicked =>
      simp only [step, on_toggle_clicked] at hOff
      rw [hRun] at hOff; exact absurd hOff (by simp)
  | pollLog =>
      simp only [step, poll_log_queue] at hOff
      rw [hRun] at hOff; exact absurd hOff (by simp)
  | cancelClicked => exact Or.inl rfl
  | workerLog line =>
      by_cases hw : s.active_workers.isEmpty
      · simp only [step, if_pos hw] at hOff
        rw [hRun] at hOff; exact absurd hOff (by simp)
      · simp only [step, if_neg hw] at hOff
        rw [hRun] at hOff; exact absurd hOff (by simp)
  | workerExit wenv => exact Or.inr ⟨wenv, rfl⟩
  | runClicked =>
      simp only [step, on_run_clicked_running hRun] at hOff
      rw [hRun] at hOff; exact absurd hOff (by simp)

/-- C1 (counterexample): the claim "RUNNING→IDLE only when the worker
exits" and "at most one Fetch Worker is active at any time, for every
sequence of user actions" are both false of the code. After a valid
submission followed by a cancel click the Job State is already IDLE while
the worker is still active (the cancel handler itself clears
`is_downloading` at line 243, before the worker exits), and a further
submission then spawns a second worker while the first is still live,
giving two active workers at once. -/
theorem single_worker_claim_fails :
    ((run envAllOk initState
        [Event.setUrl "u", Event.setDir "d", Event.runClicked,
         Event.cancelClicked]).is_downloading = false
      ∧ (run envAllOk initState
          [Event.setUrl "u", Event.setDir "d", Event.runClicked,
           Event.cancelClicked]).active_workers ≠ [])
    ∧ (run envAllOk initState
        [Event.setUrl "u", Event.setDir "d", Event.runClicked,
         Event.cancelClicked, Event.runClicked]).active_workers.length = 2 := by
  exact ⟨⟨by decide, by decide⟩, by decide⟩

/-- C1 (amended): while no cancel click occurs, at most one Fetch Worker
is active at any time; a submission made while the Job State is RUNNING is
a no-op that changes nothing and spawns no second worker; the state
transitions IDLE→RUNNING only on a valid submission; and RUNNING→IDLE
happens only on a worker exit or on a cancel request (a cancel click sets
the state to IDLE immediately, before the worker exits). -/
theorem job_lifecycle (env : SubmitEnv) :
    (∀ t : List Event, Event.cancelClicked ∉ t →
        (run env initState t).active_workers.length ≤ 1)
  ∧ (∀ s : GuiState, s.is_downloading = true → step env s Event.runClicked = s)
  ∧ (∀ s : GuiState, ∀ e : Event, s.is_downloading = false →
        (step env s e).is_downloading = true → e = Event.runClicked ∧ validSubmit env s)
  ∧ (∀ s : GuiState, ∀ e : Event, s.is_downloading = true →
        (step env s e).is_downloading = false →
        e = Event.cancelClicked ∨ ∃ wenv, e = Event.workerExit wenv) := by
  refine ⟨?_, ?_, ?_, ?_⟩
  · intro t ht
    have hinit : goodState initState := by constructor <;> simp [initState]
    exact (goodState_run env initState t ht hinit).1
  · intro s h
    simp [step, on_run_clicked_running h]
  · intro s e hIdle hOn
    exact flag_on_only_by_valid_submit env s e hIdle hOn
  · intro s e hRun hOff
    exact flag_off_only_by_cancel_or_exit env s e hRun hOff

/-- Witness for `job_lifecycle` at a concrete cancel-free trace. -/
theorem job_lifecycle_witness :
    (run envAllOk initState
      [Event.setUrl "u", Event.setDir "d", Event.runClicked,
       Event.workerExit ⟨[], ExtractResult.ok none none, true⟩,
       Event.runClicked]).active_workers.length ≤ 1 :=
  (job_lifecycle envAllOk).1 _ (by decide)

/-- C2: whatever the worker outcome — success of the extraction call, or
any exception raised inside the worker body — the exit of a live worker
always clears the `is_downloading` flag, re-enables the run button and
disables the cancel button: the `finally` block runs regardless of the
outcome `wenv` observed. -/
theorem worker_exit_restores_idle (env : SubmitEnv) (s : GuiState)
    (wenv : WorkerEnv) (h : s.active_workers ≠ []) :
    (step env s (Event.workerExit wenv)).is_downloading = false
  ∧ (step env s (Event.workerExit wenv)).run_btn_enabled = true
  ∧ (step env s (Event.workerExit wenv)).cancel_btn_enabled = false := by
  cases hw : s.active_workers with
  | nil => exact absurd hw h
  | cons req rest => simp [step, hw, worker_finish]

/-- Witness for `worker_exit_restores_idle`: a state with a live worker,
exiting with an exception outcome. -/
theorem worker_exit_restores_idle_witness :
    (step envAllOk
        (run envAllOk initState [Event.setUrl "u", Event.setDir "d", Event.runClicked])
        (Event.workerExit ⟨["l1"], ExtractResult.raised "boom", false⟩)).is_downloading
        = false
  ∧ (step envAllOk
        (run envAllOk initState [Event.setUrl "u", Event.setDir "d", Event.runClicked])
        (Event.workerExit ⟨["l1"], ExtractResult.raised "boom", false⟩)).run_btn_enabled
        = true
  ∧ (step envAllOk
        (run envAllOk initState [Event.setUrl "u", Event.setDir "d", Event.runClicked])
        (Event.workerExit ⟨["l1"], ExtractResult.raised "boom", false⟩)).cancel_btn_enabled
        = false :=
  worker_exit_restores_idle envAllOk
    (run envAllOk initState [Event.setUrl "u", Event.setDir "d", Event.runClicked])
    ⟨["l1"], ExtractResult.raised "boom", false⟩ (by decide)

/-- C3: from IDLE, a submission with an empty (stripped) URL fails with
the VALIDATION warning for the URL and leaves the state untouched (no
worker starts); one with a non-empty URL but an empty or non-existent
directory fails with the VALIDATION warning for the directory and leaves
the state untouched; and when all four precondition checks pass, no error
dialog is shown, the state becomes RUNNING, the run button is disabled,
the cancel button is enabled, and the Fetch Worker is scheduled with the
stripped inputs and the toggle value. -/
theorem submit_contract (env : SubmitEnv) (s : GuiState)
    (hIdle : s.is_downloading = false) :
    (pyStrip s.url_var = "" →
        on_run_clicked env s = (s, some SubmitError.validationUrl)
      ∧ SubmitError.validationUrl.isValidation = true)
  ∧ (pyStrip s.url_var ≠ "" →
      (pyStrip s.save_dir_var = "" ∨ env.isdir (pyStrip s.save_dir_var) = false) →
        on_run_clicked env s = (s, some SubmitError.validationDir)
      ∧ SubmitError.validationDir.isValidation = true)
  ∧ (validSubmit env s →
        (on_run_clicked env s).2 = none
      ∧ (on_run_clicked env s).1.is_downloading = true
      ∧ (on_run_clicked env s).1.run_btn_enabled = false
      ∧ (on_run_clicked env s).1.cancel_btn_enabled = true
      ∧ (on_run_clicked env s).1.active_workers
          = s.active_workers
            ++ [⟨pyStrip s.url_var, pyStrip s.save_dir_var, s.as_mp3_var⟩]) := by
  refine ⟨?_, ?_, ?_⟩
  · intro hu
    exact ⟨on_run_clicked_url_empty hIdle hu, rfl⟩
  · intro hu hd
    exact ⟨on_run_clicked_dir_bad hIdle hu hd, rfl⟩
  · intro hv
    rw [on_run_clicked_success hIdle hv]
    exact ⟨rfl, rfl, rfl, rfl, rfl⟩

/-- Witness for `submit_contract`: the initial state has an empty URL. -/
theorem submit_contract_witness :
    on_run_clicked envAllOk initState = (initState, some SubmitError.validationUrl)
  ∧ SubmitError.validationUrl.isValidation = true :=
  (submit_contract envAllOk initState (by decide)).1 (by decide)

/-- C4: from IDLE, with a well-formed URL and directory, a submission made
while the extraction library or the codec tool is unavailable reports a
DEPENDENCY_MISSING error and returns the state unchanged: no worker is
spawned and the Job State remains IDLE. -/
theorem dependency_missing_blocks_submission (env : SubmitEnv) (s : GuiState)
    (hIdle : s.is_downloading = false)
    (hu : pyStrip s.url_var ≠ "") (hd : pyStrip s.save_dir_var ≠ "")
    (hi : env.isdir (pyStrip s.save_dir_var) = true)
    (hdep : env.yt_dlp_ok = false ∨ env.ffmpeg_ok = false) :
    ∃ e : SubmitError, on_run_clicked env s = (s, some e)
      ∧ e.isDependency = true
      ∧ (on_run_clicked env s).1.active_workers = s.active_workers
      ∧ (on_run_clicked env s).1.is_downloading = false := by
  cases hdep with
  | inl hy =>
      refine ⟨SubmitError.missingYtDlp, on_run_clicked_no_ytdlp hIdle hu hd hi hy, rfl, ?_, ?_⟩
      · rw [on_run_clicked_no_ytdlp hIdle hu hd hi hy]
      · rw [on_run_clicked_no_ytdlp hIdle hu hd hi hy]; exact hIdle
  | inr hf =>
      by_cases hy : env.yt_dlp_ok = false
      · refine ⟨SubmitError.missingYtDlp, on_run_clicked_no_ytdlp hIdle hu hd hi hy, rfl, ?_, ?_⟩
        · rw [on_run_clicked_no_ytdlp hIdle hu hd hi hy]
        · rw [on_run_clicked_no_ytdlp hIdle hu hd hi hy]; exact hIdle
      · have hy' : env.yt_dlp_ok = true := by
          cases hc : env.yt_dlp_ok
          · exact absurd hc hy
          · rfl
        refine ⟨SubmitError.missingFfmpeg,
          on_run_clicked_no_ffmpeg hIdle hu hd hi hy' hf, rfl, ?_, ?_⟩
        · rw [on_run_clicked_no_ffmpeg hIdle hu hd hi hy' hf]
        · rw [on_run_clicked_no_ffmpeg hIdle hu hd hi hy' hf]; exact hIdle

/-- Witness for `dependency_missing_blocks_submission`: codec tool absent
with good inputs. -/
theorem dependency_missing_blocks_submission_witness :
    ∃ e : SubmitError,
      on_run_clicked ⟨true, false, fun _ => true⟩
          { initState with url_var := "u", save_dir_var := "d" }
        = ({ initState with url_var := "u", save_dir_var := "d" }, some e)
      ∧ e.isDependency = true
      ∧ (on_run_clicked ⟨true, false, fun _ => true⟩
          { initState with url_var := "u", save_dir_var := "d" }).1.active_workers
        = ({ initState with url_var := "u", save_dir_var := "d" } : GuiState).active_workers
      ∧ (on_run_clicked ⟨true, false, fun _ => true⟩
          { initState with url_var := "u", save_dir_var := "d" }).1.is_downloading = false :=
  dependency_missing_blocks_submission ⟨true, false, fun _ => true⟩
    { initState with url_var := "u", save_dir_var := "d" }
    (by decide) (by decide) (by decide) (by decide) (Or.inr (by decide))

/-- A run click never removes lines from the log text, and its effect on
the queue is to append (either nothing, or the start line). -/
theorem on_run_clicked_log_shape (env : SubmitEnv) (s : GuiState) :
    ∃ v : List String,
      (on_run_clicked env s).1.log_text = s.log_text
    ∧ (on_run_clicked env s).1.log_queue = s.log_queue ++ v := by
  simp only [on_run_clicked]
  split
  · exact ⟨[], rfl, by simp⟩
  · split
    · exact ⟨[], rfl, by simp⟩
    · split
      · exact ⟨[], rfl, by simp⟩
      · split
        · exact ⟨[], rfl, by simp⟩
        · split
          · exact ⟨[], rfl, by simp⟩
          · exact ⟨["ダウンロードを開始します…"], rfl, rfl⟩

/-- Every step appends to the rendered log text (never rewrites it), and
appends to the combined stream "rendered text followed by pending queue"
(never reorders, drops, or duplicates what is already there). -/
theorem step_log_shape (env : SubmitEnv) (s : GuiState) (e : Event) :
    (∃ u : List String, (step env s e).log_text = s.log_text ++ u)
  ∧ (∃ v : List String,
      (step env s e).log_text ++ (step env s e).log_queue
        = s.log_text ++ s.log_queue ++ v) := by
  cases e with
  | setUrl u => exact ⟨⟨[], by simp [step]⟩, ⟨[], by simp [step]⟩⟩
  | setDir d => exact ⟨⟨[], by simp [step]⟩, ⟨[], by simp [step]⟩⟩
  | toggleClicked =>
      refine ⟨⟨[], by simp [step, on_toggle_clicked]⟩,
        ⟨["形式を切替: " ++ (if !s.as_mp3_var then "MP3(音声)" else "MP4(動画)")], ?_⟩⟩
      simp [step, on_toggle_clicked]
  | cancelClicked =>
      refine ⟨⟨[], by simp [step, on_cancel_clicked]⟩,
        ⟨["キャンセル要求を受け付けました。しばらくお待ちください…（現在の処理単位が終わるまで継続する可能性があります）"], ?_⟩⟩
      simp [step, on_cancel_clicked]
  | pollLog =>
      exact ⟨⟨s.log_queue, by simp [step, poll_log_queue]⟩,
        ⟨[], by simp [step, poll_log_queue]⟩⟩
  | workerLog line =>
      by_cases hw : s.active_workers.isEmpty
      · exact ⟨⟨[], by simp [step, hw]⟩, ⟨[], by simp [step, hw]⟩⟩
      · exact ⟨⟨[], by simp [step, hw]⟩, ⟨[line], by simp [step, hw]⟩⟩
  | workerExit wenv =>
      cases hw : s.active_workers with
      | nil => exact ⟨⟨[], by simp [step, hw]⟩, ⟨[], by simp [step, hw]⟩⟩
      | cons req rest =>
          refine ⟨⟨[], by simp [step, hw, worker_finish]⟩,
            ⟨(do_download req wenv).logs ++ ["待機中。別のURLで続けられます。"], ?_⟩⟩
          simp [step, hw, worker_finish]
  | runClicked =>
      obtain ⟨v, htext, hqueue⟩ := on_run_clicked_log_shape env s
      have hT : (step env s Event.runClicked).log_text
          = (on_run_clicked env s).1.log_text := by
        cases hrc : on_run_clicked env s with
        | mk s' opt => cases opt <;> simp [step, hrc]
      have hQ : (step env s Event.runClicked).log_queue
          = (on_run_clicked env s).1.log_queue := by
        cases hrc : on_run_clicked env s with
        | mk s' opt => cases opt <;> simp [step, hrc]
      refine ⟨⟨[], by rw [hT, htext]; simp⟩, ⟨v, ?_⟩⟩
      rw [hT, hQ, htext, hqueue]
      simp

/-- C5: the periodic drain (`_poll_log_queue`) moves every pending line,
in arrival order, from the queue to the rendered log and leaves the queue
empty; and no step of the system ever truncates the rendered log or
reorders, drops, or duplicates lines already in the rendered-text-plus-
queue stream — so lines reach the visible log exactly in the order they
were enqueued. -/
theorem log_lines_in_order (env : SubmitEnv) (s : GuiState) (e : Event) :
    (poll_log_queue s).log_text = s.log_text ++ s.log_queue
  ∧ (poll_log_queue s).log_queue = []
  ∧ (∃ u : List String, (step env s e).log_text = s.log_text ++ u)
  ∧ (∃ v : List String,
      (step env s e).log_text ++ (step env s e).log_queue
        = s.log_text ++ s.log_queue ++ v) :=
  ⟨rfl, rfl, (step_log_shape env s e).1, (step_log_shape env s e).2⟩

/-- C6: the worker configures the external tool exactly with
`build_ydl_opts`, whose format-dependent part is selected solely by the
request's format flag: MP3 selects the best audio stream with the
FFmpegExtractAudio post-processor at quality 192, MP4 selects the
best-video-plus-best-audio selector string with its fallback chain and a
merge into an mp4 container; and these fields do not depend on anything
else in the request. -/
theorem format_selects_configuration (req : JobRequest) (wenv : WorkerEnv) :
    (do_download req wenv).opts = build_ydl_opts req.save_dir req.as_mp3
  ∧ (req.as_mp3 = true →
        (do_download req wenv).opts.format = "bestaudio/best"
      ∧ (do_download req wenv).opts.postprocessors
          = [⟨"FFmpegExtractAudio", "mp3", "192"⟩]
      ∧ (do_download req wenv).opts.merge_output_format = none)
  ∧ (req.as_mp3 = false →
        (do_download req wenv).opts.format
          = "bestvideo[ext=mp4]+bestaudio[ext=m4a]/best[ext=mp4]/best"
      ∧ (do_download req wenv).opts.postprocessors = []
      ∧ (do_download req wenv).opts.merge_output_format = some "mp4")
  ∧ (∀ d1 d2 : String, ∀ b : Bool,
        (build_ydl_opts d1 b).format = (build_ydl_opts d2 b).format
      ∧ (build_ydl_opts d1 b).postprocessors = (build_ydl_opts d2 b).postprocessors
      ∧ (build_ydl_opts d1 b).merge_output_format
          = (build_ydl_opts d2 b).merge_output_format) := by
  have hopts : (do_download req wenv).opts = build_ydl_opts req.save_dir req.as_mp3 := by
    cases hx : wenv.extract with
    | raised msg => simp [do_download, hx]
    | ok title id =>
        by_cases hp : wenv.saved_path_exists
        · simp [do_download, hx, hp]
        · simp [do_download, hx, hp]
  refine ⟨hopts, ?_, ?_, ?_⟩
  · intro hmp3
    rw [hopts, hmp3]
    exact ⟨rfl, rfl, rfl⟩
  · intro hmp4
    rw [hopts, hmp4]
    exact ⟨rfl, rfl, rfl⟩
  · intro d1 d2 b
    cases b
    · exact ⟨rfl, rfl, rfl⟩
    · exact ⟨rfl, rfl, rfl⟩

/-- Witness for `format_selects_configuration` at an audio request. -/
theorem format_selects_configuration_witness :
    (do_download ⟨"u", "d", true⟩ ⟨[], ExtractResult.ok none none, true⟩).opts.format
      = "bestaudio/best"
  ∧ (do_download ⟨"u", "d", true⟩
        ⟨[], ExtractResult.ok none none, true⟩).opts.postprocessors
      = [⟨"FFmpegExtractAudio", "mp3", "192"⟩]
  ∧ (do_download ⟨"u", "d", true⟩
        ⟨[], ExtractResult.ok none none, true⟩).opts.merge_output_format = none :=
  (format_selects_configuration ⟨"u", "d", true⟩
    ⟨[], ExtractResult.ok none none, true⟩).2.1 rfl

/-- C7: a toggle click never changes the history of spawned requests, the
live workers, or the in-flight worker's log output and side effects; any
sequence of toggle clicks likewise leaves them unchanged; and a valid
submission captures the toggle value at the moment of the click into the
spawned request — the toggle is read exactly once, at submission time. -/
theorem toggle_read_once_at_submission (env : SubmitEnv) (s : GuiState)
    (wenv : WorkerEnv) :
    (step env s Event.toggleClicked).spawned = s.spawned
  ∧ (step env s Event.toggleClicked).active_workers = s.active_workers
  ∧ workerLogsOf (step env s Event.toggleClicked) wenv = workerLogsOf s wenv
  ∧ workerEffectsOf (step env s Event.toggleClicked) wenv = workerEffectsOf s wenv
  ∧ (∀ t : List Event, (∀ e ∈ t, e = Event.toggleClicked) →
        (run env s t).spawned = s.spawned
      ∧ (run env s t).active_workers = s.active_workers)
  ∧ (s.is_downloading = false → validSubmit env s →
        (step env s Event.runClicked).spawned
          = s.spawned ++ [⟨pyStrip s.url_var, pyStrip s.save_dir_var, s.as_mp3_var⟩]) := by
  refine ⟨rfl, rfl, ?_, ?_, ?_, ?_⟩
  · simp [workerLogsOf, step, on_toggle_clicked]
  · simp [workerEffectsOf, step, on_toggle_clicked]
  · intro t ht
    induction t generalizing s with
    | nil => exact ⟨rfl, rfl⟩
    | cons e es ih =>
        have he : e = Event.toggleClicked := ht e (List.mem_cons_self e es)
        subst he
        have hes : ∀ e ∈ es, e = Event.toggleClicked :=
          fun e hme => ht e (List.mem_cons_of_mem _ hme)
        have := ih (step env s Event.toggleClicked) hes
        exact ⟨this.1, this.2⟩
  · intro hIdle hv
    simp only [step, on_run_clicked_success hIdle hv]

/-- Witness for `toggle_read_once_at_submission`: the spawned request of a
concrete valid submission records the toggle value at click time. -/
theorem toggle_read_once_at_submission_witness :
    (step envAllOk { initState with url_var := "u", save_dir_var := "d" }
        Event.runClicked).spawned
      = ({ initState with url_var := "u", save_dir_var := "d" } : GuiState).spawned
        ++ [⟨pyStrip ({ initState with url_var := "u", save_dir_var := "d" }
              : GuiState).url_var,
             pyStrip ({ initState with url_var := "u", save_dir_var := "d" }
              : GuiState).save_dir_var,
             ({ initState with url_var := "u", save_dir_var := "d" }
              : GuiState).as_mp3_var⟩] :=
  (toggle_read_once_at_submission envAllOk
      { initState with url_var := "u", save_dir_var := "d" }
      ⟨[], ExtractResult.ok none none, true⟩).2.2.2.2.2
    (by decide) ⟨by decide, by decide, rfl, rfl, rfl⟩

/-- `dropWhile` of a list all of whose elements satisfy the predicate is
empty. -/
theorem dropWhile_all_eq_nil {p : Char → Bool} :
    ∀ {l : List Char}, (∀ c ∈ l, p c = true) → l.dropWhile p = [] := by
  intro l
  induction l with
  | nil => intro _; rfl
  | cons c cs ih =>
      intro h
      rw [List.dropWhile_cons, if_pos (h c (List.mem_cons_self c cs))]
      exact ih (fun x hx => h x (List.mem_cons_of_mem c hx))

/-- Stripping a string that consists only of whitespace yields the empty
string, i.e. Python's `strip()` collapses whitespace-only fields to
empty. -/
theorem pyStrip_of_all_whitespace {s : String}
    (h : s.data.all Char.isWhitespace = true) : pyStrip s = "" := by
  have h' : ∀ c ∈ s.data, Char.isWhitespace c = true := by
    intro c hc
    exact List.all_eq_true.mp h c hc
  unfold pyStrip
  rw [dropWhile_all_eq_nil h']
  decide

/-- C8: from IDLE, a URL field consisting only of whitespace is rejected
exactly like an empty one — the URL VALIDATION warning is shown, the state
is unchanged (no worker starts), and the reported error is the same as for
a literally empty field; likewise a whitespace-only destination-directory
field is rejected exactly like an empty one. -/
theorem whitespace_only_rejected_like_empty (env : SubmitEnv) (s : GuiState)
    (hIdle : s.is_downloading = false) :
    (s.url_var.data.all Char.isWhitespace = true →
        on_run_clicked env s = (s, some SubmitError.validationUrl)
      ∧ (on_run_clicked env s).2 = (on_run_clicked env { s with url_var := "" }).2)
  ∧ (pyStrip s.url_var ≠ "" → s.save_dir_var.data.all Char.isWhitespace = true →
        on_run_clicked env s = (s, some SubmitError.validationDir)
      ∧ (on_run_clicked env s).2
          = (on_run_clicked env { s with save_dir_var := "" }).2) := by
  constructor
  · intro hws
    have hu : pyStrip s.url_var = "" := pyStrip_of_all_whitespace hws
    have h1 : on_run_clicked env s = (s, some SubmitError.validationUrl) :=
      on_run_clicked_url_empty hIdle hu
    have h2 : on_run_clicked env { s with url_var := "" }
        = ({ s with url_var := "" }, some SubmitError.validationUrl) :=
      on_run_clicked_url_empty (s := { s with url_var := "" }) hIdle
        (show pyStrip "" = "" by decide)
    rw [h1, h2]
    exact ⟨rfl, rfl⟩
  · intro hu hws
    have hd : pyStrip s.save_dir_var = "" := pyStrip_of_all_whitespace hws
    have h1 : on_run_clicked env s = (s, some SubmitError.validationDir) :=
      on_run_clicked_dir_bad hIdle hu (Or.inl hd)
    have h2 : on_run_clicked env { s with save_dir_var := "" }
        = ({ s with save_dir_var := "" }, some SubmitError.validationDir) :=
      on_run_clicked_dir_bad (s := { s with save_dir_var := "" }) hIdle hu
        (Or.inl (show pyStrip "" = "" by decide))
    rw [h1, h2]
    exact ⟨rfl, rfl⟩

/-- Witness for `whitespace_only_rejected_like_empty`: a state whose URL
field is three spaces. -/
theorem whitespace_only_rejected_like_empty_witness :
    on_run_clicked envAllOk { initState with url_var := "   ", save_dir_var := "d" }
      = ({ initState with url_var := "   ", save_dir_var := "d" },
          some SubmitError.validationUrl)
  ∧ (on_run_clicked envAllOk
        { initState with url_var := "   ", save_dir_var := "d" }).2
      = (on_run_clicked envAllOk
          { initState with url_var := "", save_dir_var := "d" }).2 :=
  (whitespace_only_rejected_like_empty envAllOk
      { initState with url_var := "   ", save_dir_var := "d" } (by decide)).1 (by decide)

/-- C9: a cancel click only appends the cancel message to the log queue
and clears the `is_downloading` flag; it leaves the live workers
untouched, the in-flight worker's log output and side effects are
identical with or without the cancel request (the worker body takes no
cancellation flag), and the side effects eventually performed when the
worker exits are the same whether or not cancel was clicked first. -/
theorem cancel_has_no_effect_on_worker (env : SubmitEnv) (s : GuiState)
    (wenv : WorkerEnv) :
    step env s Event.cancelClicked
      = { s with
            log_queue := s.log_queue
              ++ ["キャンセル要求を受け付けました。しばらくお待ちください…（現在の処理単位が終わるまで継続する可能性があります）"]
            is_downloading := false }
  ∧ (step env s Event.cancelClicked).active_workers = s.active_workers
  ∧ workerLogsOf (step env s Event.cancelClicked) wenv = workerLogsOf s wenv
  ∧ workerEffectsOf (step env s Event.cancelClicked) wenv = workerEffectsOf s wenv
  ∧ (step env (step env s Event.cancelClicked) (Event.workerExit wenv)).effects
      = (step env s (Event.workerExit wenv)).effects := by
  refine ⟨rfl, rfl, ?_, ?_, ?_⟩
  · simp [workerLogsOf, step, on_cancel_clicked]
  · simp [workerEffectsOf, step, on_cancel_clicked]
  · cases hw : s.active_workers with
    | nil => simp [step, on_cancel_clicked, hw]
    | cons req rest => simp [step, on_cancel_clicked, hw, worker_finish]

/-- C10: from IDLE the four precondition checks are evaluated in the fixed
order URL-emptiness, directory validity, extraction-library availability,
codec-tool availability, and only the first failing check's error dialog
is shown, whatever the later checks would have said. -/
theorem precondition_check_order (env : SubmitEnv) (s : GuiState)
    (hIdle : s.is_downloading = false) :
    (pyStrip s.url_var = "" →
        (on_run_clicked env s).2 = some SubmitError.validationUrl)
  ∧ (pyStrip s.url_var ≠ "" →
      (pyStrip s.save_dir_var = "" ∨ env.isdir (pyStrip s.save_dir_var) = false) →
        (on_run_clicked env s).2 = some SubmitError.validationDir)
  ∧ (pyStrip s.url_var ≠ "" → pyStrip s.save_dir_var ≠ "" →
      env.isdir (pyStrip s.save_dir_var) = true → env.yt_dlp_ok = false →
        (on_run_clicked env s).2 = some SubmitError.missingYtDlp)
  ∧ (pyStrip s.url_var ≠ "" → pyStrip s.save_dir_var ≠ "" →
      env.isdir (pyStrip s.save_dir_var) = true → env.yt_dlp_ok = true →
      env.ffmpeg_ok = false →
        (on_run_clicked env s).2 = some SubmitError.missingFfmpeg) := by
  refine ⟨?_, ?_, ?_, ?_⟩
  · intro hu
    rw [on_run_clicked_url_empty hIdle hu]
  · intro hu hd
    rw [on_run_clicked_dir_bad hIdle hu hd]
  · intro hu hd hi hy
    rw [on_run_clicked_no_ytdlp hIdle hu hd hi hy]
  · intro hu hd hi hy hf
    rw [on_run_clicked_no_ffmpeg hIdle hu hd hi hy hf]

/-- Witness for `precondition_check_order`: with the URL empty and every
other check also failing, only the URL warning is shown. -/
theorem precondition_check_order_witness :
    (on_run_clicked ⟨false, false, fun _ => false⟩ initState).2
      = some SubmitError.validationUrl :=
  (precondition_check_order ⟨false, false, fun _ => false⟩ initState
    (by decide)).1 (by decide)

end YtDl
